import Mathlib

/-!
Verification of the SQL where-clause builder `gpf.tools.queries` (class `Where`,
function `combine`) and its helper `gpf.common.textutils.to_repr`.

Modelling decisions (shallow embedding of the Python source):
* A `Where` instance's observable state is its `_parts` list (token, is_field
  pairs) and its `_isdirty` flag; this is `WhereState`.
* Python exceptions are modelled by `PyErr`; fallible methods return
  `Except PyErr _`.  Exception messages are not modelled.
* SQL values are modelled by `SqlValue`: integers (`int`; Python `bool` is a
  subclass of `int`, compares equal to `0`/`1` and is rendered through `.real`
  as `0`/`1`, so it is identified with its integer value), text (`text`), and
  Python `None` (`pyNone`) standing for a value that `_format_value` rejects.
  Floats are not modelled.
* `more_itertools.collapse(values, levels=1)` flattening of the varargs is
  modelled by taking the already-flat list of values as input.
* Python `repr` of a string (reached through `textutils.to_repr`) is embedded
  for ASCII faithfully: quote selection, backslash escaping of the chosen
  quote and of backslashes, `\n`/`\r`/`\t` escapes and `\xHH` escapes for the
  remaining control characters.  Printable non-ASCII characters are rendered
  literally, as CPython does.
-/

inductive PyErr where
  | valueError
  | syntaxError
  | overflowError
deriving DecidableEq, Repr

inductive SqlValue where
  | int (i : Int)
  | text (s : String)
  | pyNone
deriving DecidableEq, Repr

/-- State of a `Where` instance: the `_parts` list and the `_isdirty` flag. -/
structure WhereState where
  _parts : List (String × Bool)
  _isdirty : Bool
deriving DecidableEq, Repr

/-- Argument accepted by `Where.__init__` / `Where._add_new`: a field name
(`str`), another `Where` instance, or any other Python value (`other`). -/
inductive InitArg where
  | field (f : String)
  | clause (w : WhereState)
  | other
deriving DecidableEq, Repr

/-- Decidable equality of `Except` results, used to evaluate the embedded
methods on concrete inputs. -/
instance exceptDecEq {ε α : Type} [DecidableEq ε] [DecidableEq α] :
    DecidableEq (Except ε α) := fun a b =>
  match a, b with
  | .error e1, .error e2 =>
    if h : e1 = e2 then isTrue (by rw [h]) else isFalse (by intro hh; injection hh; contradiction)
  | .ok a1, .ok a2 =>
    if h : a1 = a2 then isTrue (by rw [h]) else isFalse (by intro hh; injection hh; contradiction)
  | .error _, .ok _ => isFalse (by intro hh; exact Except.noConfusion hh)
  | .ok _, .error _ => isFalse (by intro hh; exact Except.noConfusion hh)

/-- Lower-case hexadecimal digit for `n` (callers only use `n < 16`). -/
def hexDigit : Nat → Char
  | 0 => '0'
  | 1 => '1'
  | 2 => '2'
  | 3 => '3'
  | 4 => '4'
  | 5 => '5'
  | 6 => '6'
  | 7 => '7'
  | 8 => '8'
  | 9 => '9'
  | 10 => 'a'
  | 11 => 'b'
  | 12 => 'c'
  | 13 => 'd'
  | 14 => 'e'
  | 15 => 'f'
  | _ => '0'

/-- How CPython `repr` renders one character of a string whose chosen quote
character is `q`: backslashes and the quote are backslash-escaped, newline,
carriage return and tab use their two-character escapes, other control
characters use a hexadecimal escape, everything else is rendered literally. -/
def pyEscapeChar (q c : Char) : List Char :=
  if c = '\\' then ['\\', '\\']
  else if c = q then ['\\', q]
  else if c = '\n' then ['\\', 'n']
  else if c = '\r' then ['\\', 'r']
  else if c = '\t' then ['\\', 't']
  else if c.toNat < 32 || c.toNat = 127 then ['\\', 'x', hexDigit (c.toNat / 16), hexDigit (c.toNat % 16)]
  else [c]

/-- Escape every character of a string body for `repr` with quote `q`. -/
def pyEscape (q : Char) : List Char → List Char
  | [] => []
  | c :: cs => pyEscapeChar q c ++ pyEscape q cs

/-- `gpf.common.textutils.to_repr` applied to a `str`: CPython `repr` of the
string.  The quote is a single quote, unless the string contains a single
quote and no double quote, in which case a double quote is used. -/
def to_repr (s : String) : String :=
  let q : Char := if s.data.contains '\'' && ! s.data.contains '"' then '"' else '\''
  String.mk (q :: (pyEscape q s.data ++ [q]))

/-- Python `str.upper()` restricted to ASCII, as applied to the constants
`TEXT_AND`/`TEXT_OR` (kernel-reducible, unlike `String.toUpper`). -/
def pyUpper (s : String) : String :=
  String.mk (s.data.map fun c =>
    if 97 ≤ c.toNat && c.toNat ≤ 122 then Char.ofNat (c.toNat - 32) else c)

namespace Where

/-- `Where.__SQL_AND = gpf.common.const.TEXT_AND.upper()`. -/
def SQL_AND : String := pyUpper "and"

/-- `Where.__SQL_OR = gpf.common.const.TEXT_OR.upper()`. -/
def SQL_OR : String := pyUpper "or"

def SQL_NOT : String := "NOT"

def SQL_IS : String := "IS"

def SQL_IN : String := "IN"

def SQL_NULL : String := "NULL"

def SQL_LIKE : String := "LIKE"

def SQL_BETWEEN : String := "BETWEEN"

def SQL_ESCAPE : String := "ESCAPE"

def SQL_EQ : String := "="

def SQL_LE : String := "<="

def SQL_GE : String := ">="

def SQL_LT : String := "<"

def SQL_GT : String := ">"

def SQL_NE : String := "<>"

/-- `Where._add_any`: appends one part unless doing so would make the query
invalid, in which case Python raises `SyntaxError`. -/
def _add_any (s : WhereState) (value : String) (is_field : Bool) (is_conjunction : Bool) :
    Except PyErr WhereState :=
  if (is_field || is_conjunction) == s._isdirty then .error .syntaxError
  else .ok { s with _parts := s._parts ++ [(value, is_field)] }

/-- `Where._add_expression`: adds the given parts one by one via `_add_any`
and then clears the dirty flag. -/
def _add_expression (s : WhereState) (values : List String) : Except PyErr WhereState := do
  let s1 ← values.foldlM (fun acc v => _add_any acc v false false) s
  .ok { s1 with _isdirty := false }

/-- `Where._add_field`: adds a field part and sets the dirty flag. -/
def _add_field (s : WhereState) (field : String) : Except PyErr WhereState := do
  let s1 ← _add_any s field true false
  .ok { s1 with _isdirty := true }

/-- `Where._add_clause`: copies all parts of the other clause and its
`_isdirty` state. -/
def _add_clause (s : WhereState) (clause : WhereState) : WhereState :=
  { s with _parts := s._parts ++ clause._parts, _isdirty := clause._isdirty }

/-- `Where._add_new`: dispatches on the argument type; any value that is
neither a `Where` instance nor a `str` raises `ValueError`. -/
def _add_new (s : WhereState) (field_or_clause : InitArg) : Except PyErr WhereState :=
  match field_or_clause with
  | .clause c => .ok (_add_clause s c)
  | .field f => _add_field s f
  | .other => .error .valueError

/-- `Where.__init__`: starts from empty parts, clean state, then `_add_new`. -/
def init (field_or_clause : InitArg) : Except PyErr WhereState :=
  _add_new { _parts := [], _isdirty := false } field_or_clause

/-- `Where._combine`: appends the conjunction part, then the new field or
clause. -/
def _combine (s : WhereState) (operator : String) (field_or_clause : InitArg) :
    Except PyErr WhereState := do
  let s1 ← _add_any s operator false true
  _add_new s1 field_or_clause

/-- The space-joined concatenation of all parts (the body of
`Where._output`). -/
def outputJoin (s : WhereState) : String :=
  String.intercalate " " (s._parts.map Prod.fst)

/-- `Where._output`: raises `ValueError` when `check` is set and the query is
dirty, otherwise joins all parts with single spaces. -/
def _output (s : WhereState) (check : Bool) : Except PyErr String :=
  if check && s._isdirty then .error .valueError
  else .ok (outputJoin s)

/-- `Where.__repr__`: output without validity check. -/
def __repr__ (s : WhereState) : Except PyErr String := _output s false

/-- `Where.__str__`: output with validity check. -/
def __str__ (s : WhereState) : Except PyErr String := _output s true

/-- Whether two values belong to one comparability family, mirroring
`isinstance(v, sample_type)` in `Where._check_types` (numbers — with booleans
as integers — form one family, text another, `None` its own). -/
def sameFamily : SqlValue → SqlValue → Bool
  | .int _, .int _ => true
  | .text _, .text _ => true
  | .pyNone, .pyNone => true
  | _, _ => false

/-- `Where._check_types`: all values share the family of the first value. -/
def _check_types (l : List SqlValue) : Bool :=
  match l with
  | [] => true
  | v :: _ => l.all (sameFamily v)

/-- `Where._format_value`: numbers render via `str(value.real)`, text via
`to_repr`, anything else raises `ValueError`. -/
def _format_value : SqlValue → Except PyErr String
  | .int i => .ok (toString i)
  | .text s => .ok (to_repr s)
  | .pyNone => .error .valueError

/-- `Where._check_values`: requires at least `minRequired` values and a
consistent type family, raising `ValueError` otherwise. -/
def _check_values (values : List SqlValue) (minRequired : Nat) : Except PyErr (List SqlValue) :=
  if values.length < minRequired then .error .valueError
  else if ! _check_types values then .error .valueError
  else .ok values

end Where

/-- Python `<` on modelled SQL values: integer order within the numeric
family and code-point order on text.  Cross-family comparisons never occur on
code paths that passed `_check_types`; they are ordered arbitrarily (but
totally) so that the sort below is well defined. -/
def svLT : SqlValue → SqlValue → Bool
  | .int a, .int b => decide (a < b)
  | .text a, .text b => decide (a < b)
  | .pyNone, .int _ => true
  | .pyNone, .text _ => true
  | .int _, .text _ => true
  | _, _ => false

/-- The non-strict companion of `svLT` (`a ≤ b` iff not `b < a`). -/
def svle (a b : SqlValue) : Prop := svLT b a = false

instance : DecidableRel svle := fun a b => inferInstanceAs (Decidable (svLT b a = false))

/-- Python `sorted(frozenset(values))`: the ascending duplicate-free
arrangement of the distinct values.  Realised as an insertion sort of the
deduplicated list; below it is proved that the result only depends on which
values are present. -/
def dedupSort (l : List SqlValue) : List SqlValue :=
  List.insertionSort svle l.dedup

/-- Python `min(values)` (first argument wins ties; unreachable default for
the empty list). -/
def listMin : List SqlValue → SqlValue
  | [] => .pyNone
  | v :: vs => vs.foldl (fun acc x => if svLT x acc then x else acc) v

/-- Python `max(values)` (first argument wins ties; unreachable default for
the empty list). -/
def listMax : List SqlValue → SqlValue
  | [] => .pyNone
  | v :: vs => vs.foldl (fun acc x => if svLT acc x then x else acc) v

namespace Where

/-- Formats a list of values left to right (the generator expression consumed
by `str.join` inside `Where._in`). -/
def formatValues : List SqlValue → Except PyErr (List String)
  | [] => .ok []
  | v :: vs => do
    let fv ← _format_value v
    let rest ← formatValues vs
    .ok (fv :: rest)

/-- `Where._in`: checks the values, renders the sorted distinct values as a
comma-separated parenthesised tuple and adds `operator expression`. -/
def _in (s : WhereState) (operator : String) (values : List SqlValue) :
    Except PyErr WhereState := do
  let flat_values ← _check_values values 1
  let strs ← formatValues (dedupSort flat_values)
  let expression := "(" ++ String.intercalate ", " strs ++ ")"
  _add_expression s [operator, expression]

/-- `Where._between`: checks the values and adds
`operator lower AND upper` with the formatted minimum and maximum. -/
def _between (s : WhereState) (operator : String) (values : List SqlValue) :
    Except PyErr WhereState := do
  let flat_values ← _check_values values 2
  let lower ← _format_value (listMin flat_values)
  let upper ← _format_value (listMax flat_values)
  _add_expression s [operator, lower, SQL_AND, upper]

/-- `Where._like`: formats the value, optionally adds an `ESCAPE` clause
(Python truthiness: `None` and the empty string both suppress it), and adds
the operator plus the space-joined expression. -/
def _like (s : WhereState) (operator : String) (value : SqlValue)
    (escape_char : Option String) : Except PyErr WhereState := do
  let fv ← _format_value value
  let expression :=
    match escape_char with
    | some e => if e = "" then [fv] else [fv, SQL_ESCAPE, to_repr e]
    | none => [fv]
  _add_expression s [operator, String.intercalate " " expression]

end Where

/-- The `_return_new` decorator: runs the method body on a fresh instance
built by `Where.__init__` from the original instance, returning the fresh
instance (the original is untouched — in this pure embedding it is simply
not part of the result). -/
def _return_new (body : WhereState → Except PyErr WhereState) (instanceState : WhereState) :
    Except PyErr WhereState := do
  let new_instance ← Where.init (.clause instanceState)
  body new_instance

namespace Where

/-- `Where.And`. -/
def And (w : WhereState) (field_or_clause : InitArg) : Except PyErr WhereState :=
  _return_new (fun s => _combine s SQL_AND field_or_clause) w

/-- `Where.Or`. -/
def Or (w : WhereState) (field_or_clause : InitArg) : Except PyErr WhereState :=
  _return_new (fun s => _combine s SQL_OR field_or_clause) w

/-- `Where.In`. -/
def In (w : WhereState) (values : List SqlValue) : Except PyErr WhereState :=
  _return_new (fun s => _in s SQL_IN values) w

/-- `Where.NotIn`. -/
def NotIn (w : WhereState) (values : List SqlValue) : Except PyErr WhereState :=
  _return_new (fun s => _in s (SQL_NOT ++ " " ++ SQL_IN) values) w

/-- `Where.Between`. -/
def Between (w : WhereState) (values : List SqlValue) : Except PyErr WhereState :=
  _return_new (fun s => _between s SQL_BETWEEN values) w

/-- `Where.NotBetween`. -/
def NotBetween (w : WhereState) (values : List SqlValue) : Except PyErr WhereState :=
  _return_new (fun s => _between s (SQL_NOT ++ " " ++ SQL_BETWEEN) values) w

/-- `Where.Like`. -/
def Like (w : WhereState) (value : SqlValue) (escape_char : Option String) :
    Except PyErr WhereState :=
  _return_new (fun s => _like s SQL_LIKE value escape_char) w

/-- `Where.NotLike`. -/
def NotLike (w : WhereState) (value : SqlValue) (escape_char : Option String) :
    Except PyErr WhereState :=
  _return_new (fun s => _like s (SQL_NOT ++ " " ++ SQL_LIKE) value escape_char) w

/-- `Where.Equals`: the value is formatted first (Python evaluates the
argument expression before the `_add_expression` call). -/
def Equals (w : WhereState) (value : SqlValue) : Except PyErr WhereState :=
  _return_new (fun s => do _add_expression s [SQL_EQ, ← _format_value value]) w

/-- `Where.NotEquals`. -/
def NotEquals (w : WhereState) (value : SqlValue) : Except PyErr WhereState :=
  _return_new (fun s => do _add_expression s [SQL_NE, ← _format_value value]) w

/-- `Where.GreaterThan`. -/
def GreaterThan (w : WhereState) (value : SqlValue) : Except PyErr WhereState :=
  _return_new (fun s => do _add_expression s [SQL_GT, ← _format_value value]) w

/-- `Where.LessThan`. -/
def LessThan (w : WhereState) (value : SqlValue) : Except PyErr WhereState :=
  _return_new (fun s => do _add_expression s [SQL_LT, ← _format_value value]) w

/-- `Where.GreaterThanOrEquals`. -/
def GreaterThanOrEquals (w : WhereState) (value : SqlValue) : Except PyErr WhereState :=
  _return_new (fun s => do _add_expression s [SQL_GE, ← _format_value value]) w

/-- `Where.LessThanOrEquals`. -/
def LessThanOrEquals (w : WhereState) (value : SqlValue) : Except PyErr WhereState :=
  _return_new (fun s => do _add_expression s [SQL_LE, ← _format_value value]) w

/-- `Where.IsNull`: adds the single part `IS NULL` and clears the flag. -/
def IsNull (w : WhereState) : Except PyErr WhereState :=
  _return_new
    (fun s => do
      let s1 ← _add_any s (SQL_IS ++ " " ++ SQL_NULL) false false
      .ok { s1 with _isdirty := false })
    w

/-- `Where.IsNotNull`: adds the single part `IS NOT NULL` and clears the
flag. -/
def IsNotNull (w : WhereState) : Except PyErr WhereState :=
  _return_new
    (fun s => do
      let s1 ← _add_any s (String.intercalate " " [SQL_IS, SQL_NOT, SQL_NULL]) false false
      .ok { s1 with _isdirty := false })
    w

/-- Python dict item assignment `kwargs[keyword] = v` on an
insertion-ordered association list. -/
def setKw (kwargs : List (String × String)) (keyword v : String) : List (String × String) :=
  if kwargs.any (fun p => p.fst == keyword)
  then kwargs.map (fun p => if p.fst == keyword then (keyword, v) else p)
  else kwargs ++ [(keyword, v)]

/-- `Where.get_kwargs`: stores the unchecked output under `keyword` in the
supplied keyword dictionary. -/
def get_kwargs (s : WhereState) (keyword : String) (kwargs : List (String × String)) :
    Except PyErr (List (String × String)) := do
  let out ← _output s false
  .ok (setKw kwargs keyword out)

/-- `Where.fields`: all parts flagged as fields, in order of occurrence. -/
def fields (s : WhereState) : List String :=
  (s._parts.filter Prod.snd).map Prod.fst

/-- `Where.is_ready`. -/
def is_ready (s : WhereState) : Bool := ! s._isdirty

end Where

/-- `gpf.tools.queries.combine`: requires a complete query and wraps its
parts in parenthesis parts (inserted at the front and appended at the back). -/
def combine (where_clause : WhereState) : Except PyErr WhereState :=
  if ! Where.is_ready where_clause then .error .valueError
  else .ok { _parts := ("(", false) :: where_clause._parts ++ [(")", false)],
             _isdirty := where_clause._isdirty }

/-- Renders the query resulting from a chain of calls via `str()`. -/
def renderE (e : Except PyErr WhereState) : Except PyErr String :=
  e >>= Where.__str__

/-!
Heap layer: to state that methods never mutate their operands, Python object
identity is modelled explicitly.  A heap is a list of `Where` states; a
reference is an index into it.  `_return_new` allocates the fresh instance at
the end of the heap; when the method body raises, the fresh object is
unreachable and the heap is observationally unchanged.
-/

/-- Reads the state of the object referenced by `r`. -/
def heapGet (h : List WhereState) (r : Nat) : Option WhereState := h[r]?

/-- `_return_new` with explicit allocation: runs the decorated body on a copy
of the referenced instance and stores the fresh instance at a fresh
reference. -/
def return_new_heap (h : List WhereState) (r : Nat)
    (body : WhereState → Except PyErr WhereState) : Except PyErr (List WhereState × Nat) :=
  match heapGet h r with
  | none => .error .valueError
  | some s =>
    match _return_new body s with
    | .error e => .error e
    | .ok s2 => .ok (h ++ [s2], h.length)

/-- A method argument at the heap level: a field name or a reference to
another `Where` object. -/
def resolveArg (h : List WhereState) (arg : String ⊕ Nat) : Option InitArg :=
  match arg with
  | .inl f => some (.field f)
  | .inr ra => (heapGet h ra).map .clause

/-- `Where.And` at the heap level. -/
def heapAnd (h : List WhereState) (r : Nat) (arg : String ⊕ Nat) :
    Except PyErr (List WhereState × Nat) :=
  match resolveArg h arg with
  | none => .error .valueError
  | some a => return_new_heap h r (fun s => Where._combine s Where.SQL_AND a)

/-- `Where.Or` at the heap level. -/
def heapOr (h : List WhereState) (r : Nat) (arg : String ⊕ Nat) :
    Except PyErr (List WhereState × Nat) :=
  match resolveArg h arg with
  | none => .error .valueError
  | some a => return_new_heap h r (fun s => Where._combine s Where.SQL_OR a)

/-- `Where.Equals` at the heap level. -/
def heapEquals (h : List WhereState) (r : Nat) (value : SqlValue) :
    Except PyErr (List WhereState × Nat) :=
  return_new_heap h r (fun s => do Where._add_expression s [Where.SQL_EQ, ← Where._format_value value])

/-- `Where.IsNull` at the heap level. -/
def heapIsNull (h : List WhereState) (r : Nat) : Except PyErr (List WhereState × Nat) :=
  return_new_heap h r
    (fun s => do
      let s1 ← Where._add_any s (Where.SQL_IS ++ " " ++ Where.SQL_NULL) false false
      .ok { s1 with _isdirty := false })

/-- Frame property of a heap-level call: every object that existed before the
call is unchanged afterwards, and the returned reference is the fresh slot
just past the old heap. -/
def heapFrame (h : List WhereState) (out : List WhereState × Nat) : Prop :=
  (∀ i, i < h.length → heapGet out.fst i = heapGet h i) ∧ out.snd = h.length

/-!
Scanner predicates on rendered string literals, used to state how embedded
single quotes are escaped.
-/

/-- Whether a character list contains a single quote that is not part of a
backslash escape (a backslash always consumes the following character). -/
def hasBareQuote : List Char → Bool
  | [] => false
  | [c] => c == '\''
  | c :: d :: rest =>
    if c == '\\' then hasBareQuote rest
    else if c == '\'' then true
    else hasBareQuote (d :: rest)

/-- Whether every single quote in a character list is escaped by one of the
two conventional SQL schemes: doubling (`''`) or a preceding backslash. -/
def quoteEscapedOk : List Char → Bool
  | [] => true
  | [c] => c != '\''
  | c :: d :: rest =>
    if c == '\\' then quoteEscapedOk rest
    else if c == '\'' then (d == '\'') && quoteEscapedOk rest
    else quoteEscapedOk (d :: rest)

/-- The characters strictly between the opening and closing quote of a
rendered literal. -/
def literalBody (s : String) : List Char := (s.data.drop 1).dropLast

/-! Helper lemmas. -/

theorem svLT_irrefl (a : SqlValue) : svLT a a = false := by
  cases a <;> simp [svLT]

theorem svLT_asymm {a b : SqlValue} (h : svLT a b = true) : svLT b a = false := by
  cases a <;> cases b <;>
    simp only [svLT, decide_eq_true_eq, decide_eq_false_iff_not, Bool.false_eq_true] at h ⊢ <;>
    first
    | trivial
    | exact h.elim
    | omega
    | exact lt_asymm h

theorem svLT_trans {a b c : SqlValue} (h1 : svLT a b = true) (h2 : svLT b c = true) :
    svLT a c = true := by
  cases a <;> cases b <;> cases c <;>
    simp only [svLT, decide_eq_true_eq, Bool.false_eq_true] at h1 h2 ⊢ <;>
    first
    | trivial
    | exact h1.elim
    | exact h2.elim
    | omega
    | exact lt_trans h1 h2

theorem svLT_connex {a b : SqlValue} (h : a ≠ b) : svLT a b = true ∨ svLT b a = true := by
  cases a <;> cases b <;>
    simp_all only [svLT, ne_eq, SqlValue.int.injEq, SqlValue.text.injEq, decide_eq_true_eq,
      Bool.false_eq_true, or_false, false_or, not_false_eq_true, not_true_eq_false] <;>
    first
    | trivial
    | omega
    | exact lt_or_gt_of_ne h

theorem svle_lt_trans {a b c : SqlValue} (h1 : svLT b a = false) (h2 : svLT b c = true) :
    svLT a c = true := by
  rcases eq_or_ne a b with rfl | hab
  · exact h2
  · rcases svLT_connex hab with hl | hl
    · exact svLT_trans hl h2
    · rw [hl] at h1; cases h1

theorem svlt_le_trans {a b c : SqlValue} (h1 : svLT a b = true) (h2 : svLT c b = false) :
    svLT a c = true := by
  rcases eq_or_ne b c with rfl | hbc
  · exact h1
  · rcases svLT_connex hbc with hl | hl
    · exact svLT_trans h1 hl
    · rw [hl] at h2; cases h2

instance : IsTrans SqlValue svle where
  trans a b c h1 h2 := by
    unfold svle at *
    by_contra h3
    rw [Bool.not_eq_false] at h3
    have hcb := svlt_le_trans h3 h1
    rw [hcb] at h2
    cases h2

instance : IsTotal SqlValue svle where
  total a b := by
    unfold svle
    cases hb : svLT b a
    · exact Or.inl rfl
    · exact Or.inr (svLT_asymm hb)

instance : IsAntisymm SqlValue svle where
  antisymm a b h1 h2 := by
    unfold svle at *
    by_contra hne
    rcases svLT_connex (Ne.symm hne) with hl | hl
    · rw [h1] at hl; cases hl
    · rw [h2] at hl; cases hl

theorem mem_dedupSort {l : List SqlValue} {a : SqlValue} : a ∈ dedupSort l ↔ a ∈ l := by
  simp [dedupSort, List.mem_insertionSort, List.mem_dedup]

theorem nodup_dedupSort (l : List SqlValue) : (dedupSort l).Nodup :=
  (List.perm_insertionSort svle l.dedup).nodup_iff.mpr (List.nodup_dedup l)

theorem sorted_dedupSort (l : List SqlValue) : List.Sorted svle (dedupSort l) :=
  List.sorted_insertionSort svle l.dedup

theorem dedupSort_eq_of_mem_iff {l1 l2 : List SqlValue} (h : ∀ v, v ∈ l1 ↔ v ∈ l2) :
    dedupSort l1 = dedupSort l2 := by
  refine List.eq_of_perm_of_sorted ?_ (sorted_dedupSort l1) (sorted_dedupSort l2)
  refine (List.perm_ext_iff_of_nodup (nodup_dedupSort l1) (nodup_dedupSort l2)).mpr ?_
  intro v
  rw [mem_dedupSort, mem_dedupSort]
  exact h v

theorem sameFamily_refl (a : SqlValue) : Where.sameFamily a a = true := by
  cases a <;> rfl

theorem sameFamily_symm {a b : SqlValue} (h : Where.sameFamily a b = true) :
    Where.sameFamily b a = true := by
  cases a <;> cases b <;> simp_all [Where.sameFamily]

theorem sameFamily_trans {a b c : SqlValue} (h1 : Where.sameFamily a b = true)
    (h2 : Where.sameFamily b c = true) : Where.sameFamily a c = true := by
  cases a <;> cases b <;> cases c <;> simp_all [Where.sameFamily]

theorem check_types_iff {l : List SqlValue} :
    Where._check_types l = true ↔ ∀ a ∈ l, ∀ b ∈ l, Where.sameFamily a b = true := by
  cases l with
  | nil => simp [Where._check_types]
  | cons v vs =>
    simp only [Where._check_types, List.all_eq_true]
    constructor
    · intro h a ha b hb
      exact sameFamily_trans (sameFamily_symm (h a ha)) (h b hb)
    · intro h a ha
      exact h v (by simp) a ha

theorem check_types_eq_of_mem_iff {l1 l2 : List SqlValue} (h : ∀ v, v ∈ l1 ↔ v ∈ l2) :
    Where._check_types l1 = Where._check_types l2 := by
  cases h1 : Where._check_types l1 <;> cases h2 : Where._check_types l2 <;> try rfl
  · rw [check_types_iff] at h2
    have hh : Where._check_types l1 = true :=
      check_types_iff.mpr fun a ha b hb => h2 a ((h a).mp ha) b ((h b).mp hb)
    rw [h1] at hh; cases hh
  · rw [check_types_iff] at h1
    have hh : Where._check_types l2 = true :=
      check_types_iff.mpr fun a ha b hb => h1 a ((h a).mpr ha) b ((h b).mpr hb)
    rw [h2] at hh; cases hh

theorem foldl_min_spec : ∀ (vs : List SqlValue) (acc : SqlValue),
    (List.foldl (fun a x => if svLT x a then x else a) acc vs = acc ∨
      List.foldl (fun a x => if svLT x a then x else a) acc vs ∈ vs) ∧
    svLT acc (List.foldl (fun a x => if svLT x a then x else a) acc vs) = false ∧
    ∀ x ∈ vs, svLT x (List.foldl (fun a x => if svLT x a then x else a) acc vs) = false
  | [], acc => ⟨Or.inl rfl, svLT_irrefl acc, by simp⟩
  | v :: vs, acc => by
    simp only [List.foldl_cons]
    by_cases hv : svLT v acc = true
    · simp only [hv, if_true]
      obtain ⟨ihmem, ihacc, ihall⟩ := foldl_min_spec vs v
      refine ⟨?_, ?_, ?_⟩
      · rcases ihmem with h | h
        · exact Or.inr (by rw [h]; exact List.mem_cons_self v vs)
        · exact Or.inr (List.mem_cons_of_mem v h)
      · exact svLT_asymm (svle_lt_trans ihacc hv)
      · intro x hx
        rcases List.mem_cons.mp hx with rfl | hx
        · exact ihacc
        · exact ihall x hx
    · have hv' : svLT v acc = false := by simpa using hv
      simp only [hv', if_false, Bool.false_eq_true]
      obtain ⟨ihmem, ihacc, ihall⟩ := foldl_min_spec vs acc
      refine ⟨?_, ihacc, ?_⟩
      · rcases ihmem with h | h
        · exact Or.inl h
        · exact Or.inr (List.mem_cons_of_mem v h)
      · intro x hx
        rcases List.mem_cons.mp hx with rfl | hx
        · by_contra hc
          rw [Bool.not_eq_false] at hc
          have hca := svlt_le_trans hc ihacc
          rw [hv'] at hca; cases hca
        · exact ihall x hx

theorem foldl_max_spec : ∀ (vs : List SqlValue) (acc : SqlValue),
    (List.foldl (fun a x => if svLT a x then x else a) acc vs = acc ∨
      List.foldl (fun a x => if svLT a x then x else a) acc vs ∈ vs) ∧
    svLT (List.foldl (fun a x => if svLT a x then x else a) acc vs) acc = false ∧
    ∀ x ∈ vs, svLT (List.foldl (fun a x => if svLT a x then x else a) acc vs) x = false
  | [], acc => ⟨Or.inl rfl, svLT_irrefl acc, by simp⟩
  | v :: vs, acc => by
    simp only [List.foldl_cons]
    by_cases hv : svLT acc v = true
    · simp only [hv, if_true]
      obtain ⟨ihmem, ihacc, ihall⟩ := foldl_max_spec vs v
      refine ⟨?_, ?_, ?_⟩
      · rcases ihmem with h | h
        · exact Or.inr (by rw [h]; exact List.mem_cons_self v vs)
        · exact Or.inr (List.mem_cons_of_mem v h)
      · exact svLT_asymm (svlt_le_trans hv ihacc)
      · intro x hx
        rcases List.mem_cons.mp hx with rfl | hx
        · exact ihacc
        · exact ihall x hx
    · have hv' : svLT acc v = false := by simpa using hv
      simp only [hv', if_false, Bool.false_eq_true]
      obtain ⟨ihmem, ihacc, ihall⟩ := foldl_max_spec vs acc
      refine ⟨?_, ihacc, ?_⟩
      · rcases ihmem with h | h
        · exact Or.inl h
        · exact Or.inr (List.mem_cons_of_mem v h)
      · intro x hx
        rcases List.mem_cons.mp hx with rfl | hx
        · by_contra hc
          rw [Bool.not_eq_false] at hc
          have hca := svlt_le_trans hc hv'
          rw [ihacc] at hca; cases hca
        · exact ihall x hx

theorem listMin_mem : ∀ {l : List SqlValue}, l ≠ [] → listMin l ∈ l
  | [], h => absurd rfl h
  | v :: vs, _ => by
    show List.foldl (fun a x => if svLT x a then x else a) v vs ∈ v :: vs
    rcases (foldl_min_spec vs v).1 with h | h
    · rw [h]; exact List.mem_cons_self v vs
    · exact List.mem_cons_of_mem v h

theorem listMin_le : ∀ {l : List SqlValue}, ∀ x ∈ l, svLT x (listMin l) = false
  | v :: vs, x, hx => by
    rcases List.mem_cons.mp hx with rfl | hx
    · exact (foldl_min_spec vs x).2.1
    · exact (foldl_min_spec vs v).2.2 x hx

theorem listMax_mem : ∀ {l : List SqlValue}, l ≠ [] → listMax l ∈ l
  | [], h => absurd rfl h
  | v :: vs, _ => by
    show List.foldl (fun a x => if svLT a x then x else a) v vs ∈ v :: vs
    rcases (foldl_max_spec vs v).1 with h | h
    · rw [h]; exact List.mem_cons_self v vs
    · exact List.mem_cons_of_mem v h

theorem listMax_ge : ∀ {l : List SqlValue}, ∀ x ∈ l, svLT (listMax l) x = false
  | v :: vs, x, hx => by
    rcases List.mem_cons.mp hx with rfl | hx
    · exact (foldl_max_spec vs x).2.1
    · exact (foldl_max_spec vs v).2.2 x hx

theorem listMin_eq_of_mem_iff {l1 l2 : List SqlValue} (h1 : l1 ≠ []) (h2 : l2 ≠ [])
    (h : ∀ v, v ∈ l1 ↔ v ∈ l2) : listMin l1 = listMin l2 := by
  have le1 := listMin_le (listMin l2) ((h _).mpr (listMin_mem h2))
  have le2 := listMin_le (listMin l1) ((h _).mp (listMin_mem h1))
  by_contra hne
  rcases svLT_connex hne with hl | hl
  · rw [le2] at hl; cases hl
  · rw [le1] at hl; cases hl

theorem listMax_eq_of_mem_iff {l1 l2 : List SqlValue} (h1 : l1 ≠ []) (h2 : l2 ≠ [])
    (h : ∀ v, v ∈ l1 ↔ v ∈ l2) : listMax l1 = listMax l2 := by
  have ge1 := listMax_ge (listMax l2) ((h _).mpr (listMax_mem h2))
  have ge2 := listMax_ge (listMax l1) ((h _).mp (listMax_mem h1))
  by_contra hne
  rcases svLT_connex hne with hl | hl
  · rw [ge1] at hl; cases hl
  · rw [ge2] at hl; cases hl

theorem init_clause (w : WhereState) : Where.init (.clause w) = .ok w := rfl

theorem return_new_eq (body : WhereState → Except PyErr WhereState) (w : WhereState) :
    _return_new body w = body w := rfl

theorem except_bind_ok {ε α β : Type} (a : α) (f : α → Except ε β) :
    (Except.ok a >>= f) = f a := rfl

theorem except_bind_error {ε α β : Type} (e : ε) (f : α → Except ε β) :
    ((Except.error e : Except ε α) >>= f) = Except.error e := rfl

theorem _add_expression_clean {s : WhereState} (hs : s._isdirty = false) (v : String)
    (vs : List String) : Where._add_expression s (v :: vs) = .error .syntaxError := by
  simp only [Where._add_expression, List.foldlM_cons, Where._add_any, hs]
  rfl

theorem formatValues_isOk {l : List SqlValue} (h : ∀ v ∈ l, v ≠ .pyNone) :
    ∃ strs, Where.formatValues l = Except.ok strs := by
  induction l with
  | nil => exact ⟨[], rfl⟩
  | cons v vs ih =>
    obtain ⟨strs, hstrs⟩ := ih (fun x hx => h x (List.mem_cons_of_mem v hx))
    obtain ⟨fv, hfv⟩ : ∃ fv, Where._format_value v = .ok fv := by
      rcases hv : v with i | t | _
      · exact ⟨_, rfl⟩
      · exact ⟨_, rfl⟩
      · exact absurd rfl (hv ▸ h v (List.mem_cons_self v vs))
    exact ⟨fv :: strs, by simp [Where.formatValues, hfv, hstrs, except_bind_ok]⟩

theorem _in_eq_of_mem_iff (s : WhereState) (op : String) {l1 l2 : List SqlValue}
    (h : ∀ v, v ∈ l1 ↔ v ∈ l2) : Where._in s op l1 = Where._in s op l2 := by
  rcases l1 with _ | ⟨a, t1⟩ <;> rcases l2 with _ | ⟨b, t2⟩
  · rfl
  · exact absurd ((h b).mpr (List.mem_cons_self b t2)) (by simp)
  · exact absurd ((h a).mp (List.mem_cons_self a t1)) (by simp)
  · have hct := check_types_eq_of_mem_iff h
    have hds := dedupSort_eq_of_mem_iff h
    cases hct2 : Where._check_types (b :: t2) with
    | false =>
      have hct1 : Where._check_types (a :: t1) = false := by rw [hct, hct2]
      have e1 : Where._check_values (a :: t1) 1 = Except.error .valueError := by
        unfold Where._check_values
        rw [if_neg (by simp), hct1]
        simp
      have e2 : Where._check_values (b :: t2) 1 = Except.error .valueError := by
        unfold Where._check_values
        rw [if_neg (by simp), hct2]
        simp
      simp only [Where._in, e1, e2, except_bind_error]
    | true =>
      have hct1 : Where._check_types (a :: t1) = true := by rw [hct, hct2]
      have e1 : Where._check_values (a :: t1) 1 = Except.ok (a :: t1) := by
        unfold Where._check_values
        rw [if_neg (by simp), hct1]
        simp
      have e2 : Where._check_values (b :: t2) 1 = Except.ok (b :: t2) := by
        unfold Where._check_values
        rw [if_neg (by simp), hct2]
        simp
      simp only [Where._in, e1, e2, except_bind_ok, hds]

theorem _between_eq_of_perm (s : WhereState) (op : String) {l1 l2 : List SqlValue}
    (hp : List.Perm l1 l2) : Where._between s op l1 = Where._between s op l2 := by
  have hmem : ∀ v, v ∈ l1 ↔ v ∈ l2 := fun v => hp.mem_iff
  have hlen := hp.length_eq
  rcases l1 with _ | ⟨a, t1⟩
  · rcases l2 with _ | ⟨b, t2⟩
    · rfl
    · simp at hlen
  · rcases l2 with _ | ⟨b, t2⟩
    · simp at hlen
    · have hct := check_types_eq_of_mem_iff hmem
      have hmin := listMin_eq_of_mem_iff (by simp) (by simp) hmem
      have hmax := listMax_eq_of_mem_iff (by simp) (by simp) hmem
      by_cases hl2 : (b :: t2).length < 2
      · have hl1 : (a :: t1).length < 2 := by omega
        have e1 : Where._check_values (a :: t1) 2 = Except.error .valueError := by
          unfold Where._check_values
          rw [if_pos hl1]
        have e2 : Where._check_values (b :: t2) 2 = Except.error .valueError := by
          unfold Where._check_values
          rw [if_pos hl2]
        simp only [Where._between, e1, e2, except_bind_error]
      · have hl1 : ¬ (a :: t1).length < 2 := by omega
        cases hct2 : Where._check_types (b :: t2) with
        | false =>
          have hct1 : Where._check_types (a :: t1) = false := by rw [hct, hct2]
          have e1 : Where._check_values (a :: t1) 2 = Except.error .valueError := by
            unfold Where._check_values
            rw [if_neg hl1, hct1]
            simp
          have e2 : Where._check_values (b :: t2) 2 = Except.error .valueError := by
            unfold Where._check_values
            rw [if_neg hl2, hct2]
            simp
          simp only [Where._between, e1, e2, except_bind_error]
        | true =>
          have hct1 : Where._check_types (a :: t1) = true := by rw [hct, hct2]
          have e1 : Where._check_values (a :: t1) 2 = Except.ok (a :: t1) := by
            unfold Where._check_values
            rw [if_neg hl1, hct1]
            simp
          have e2 : Where._check_values (b :: t2) 2 = Except.ok (b :: t2) := by
            unfold Where._check_values
            rw [if_neg hl2, hct2]
            simp
          simp only [Where._between, e1, e2, except_bind_ok, hmin, hmax]

theorem return_new_heap_frame {h : List WhereState} {r : Nat}
    {body : WhereState → Except PyErr WhereState} {out : List WhereState × Nat}
    (hok : return_new_heap h r body = .ok out) : heapFrame h out := by
  unfold return_new_heap at hok
  rcases hg : heapGet h r with _ | s
  · rw [hg] at hok; exact absurd hok (by simp)
  · rw [hg] at hok
    dsimp only at hok
    rcases hb : _return_new body s with e | s2
    · rw [hb] at hok; exact absurd hok (by simp)
    · rw [hb] at hok
      dsimp only at hok
      cases hok
      constructor
      · intro i hi
        unfold heapGet
        exact List.getElem?_append_left hi
      · rfl

theorem hexDigit_ne_backslash (n : Nat) : hexDigit n ≠ '\\' := by
  unfold hexDigit
  split <;> decide

theorem hexDigit_ne_quote (n : Nat) : hexDigit n ≠ '\'' := by
  unfold hexDigit
  split <;> decide

theorem hasBareQuote_backslash (x : Char) (l : List Char) :
    hasBareQuote ('\\' :: x :: l) = hasBareQuote l := by
  simp [hasBareQuote]

theorem hasBareQuote_quote (l : List Char) : hasBareQuote ('\'' :: l) = true := by
  cases l <;> simp [hasBareQuote]

theorem hasBareQuote_other {c : Char} (h1 : c ≠ '\\') (h2 : c ≠ '\'') (l : List Char) :
    hasBareQuote (c :: l) = hasBareQuote l := by
  cases l <;> simp [hasBareQuote, h1, h2]

theorem hasBareQuote_unit_sq (c : Char) (l : List Char) :
    hasBareQuote (pyEscapeChar '\'' c ++ l) = hasBareQuote l := by
  unfold pyEscapeChar
  by_cases h1 : c = '\\'
  · rw [if_pos h1]
    exact hasBareQuote_backslash _ _
  · rw [if_neg h1]
    by_cases h2 : c = '\''
    · rw [if_pos h2]
      exact hasBareQuote_backslash _ _
    · rw [if_neg h2]
      by_cases h3 : c = '\n'
      · rw [if_pos h3]
        exact hasBareQuote_backslash _ _
      · rw [if_neg h3]
        by_cases h4 : c = '\r'
        · rw [if_pos h4]
          exact hasBareQuote_backslash _ _
        · rw [if_neg h4]
          by_cases h5 : c = '\t'
          · rw [if_pos h5]
            exact hasBareQuote_backslash _ _
          · rw [if_neg h5]
            by_cases h6 : (decide (c.toNat < 32) || decide (c.toNat = 127)) = true
            · rw [if_pos h6]
              show hasBareQuote
                  ('\\' :: 'x' :: hexDigit (c.toNat / 16) :: hexDigit (c.toNat % 16) :: l) =
                hasBareQuote l
              rw [hasBareQuote_backslash,
                hasBareQuote_other (hexDigit_ne_backslash _) (hexDigit_ne_quote _),
                hasBareQuote_other (hexDigit_ne_backslash _) (hexDigit_ne_quote _)]
            · rw [if_neg h6]
              show hasBareQuote (c :: l) = hasBareQuote l
              exact hasBareQuote_other h1 h2 l

theorem hasBareQuote_unit_dq (c : Char) (hc : c ≠ '\'') (l : List Char) :
    hasBareQuote (pyEscapeChar '"' c ++ l) = hasBareQuote l := by
  unfold pyEscapeChar
  by_cases h1 : c = '\\'
  · rw [if_pos h1]
    exact hasBareQuote_backslash _ _
  · rw [if_neg h1]
    by_cases h2 : c = '"'
    · rw [if_pos h2]
      exact hasBareQuote_backslash _ _
    · rw [if_neg h2]
      by_cases h3 : c = '\n'
      · rw [if_pos h3]
        exact hasBareQuote_backslash _ _
      · rw [if_neg h3]
        by_cases h4 : c = '\r'
        · rw [if_pos h4]
          exact hasBareQuote_backslash _ _
        · rw [if_neg h4]
          by_cases h5 : c = '\t'
          · rw [if_pos h5]
            exact hasBareQuote_backslash _ _
          · rw [if_neg h5]
            by_cases h6 : (decide (c.toNat < 32) || decide (c.toNat = 127)) = true
            · rw [if_pos h6]
              show hasBareQuote
                  ('\\' :: 'x' :: hexDigit (c.toNat / 16) :: hexDigit (c.toNat % 16) :: l) =
                hasBareQuote l
              rw [hasBareQuote_backslash,
                hasBareQuote_other (hexDigit_ne_backslash _) (hexDigit_ne_quote _),
                hasBareQuote_other (hexDigit_ne_backslash _) (hexDigit_ne_quote _)]
            · rw [if_neg h6]
              show hasBareQuote (c :: l) = hasBareQuote l
              exact hasBareQuote_other h1 hc l

theorem hasBareQuote_pyEscape_sq (cs : List Char) : hasBareQuote (pyEscape '\'' cs) = false := by
  induction cs with
  | nil => rfl
  | cons c cs ih =>
    show hasBareQuote (pyEscapeChar '\'' c ++ pyEscape '\'' cs) = false
    rw [hasBareQuote_unit_sq]
    exact ih

theorem hasBareQuote_pyEscape_dq (cs : List Char) (hc : cs.contains '\'' = true) :
    hasBareQuote (pyEscape '"' cs) = true := by
  induction cs with
  | nil => simp at hc
  | cons c cs ih =>
    show hasBareQuote (pyEscapeChar '"' c ++ pyEscape '"' cs) = true
    by_cases hq : c = '\''
    · subst hq
      rw [show pyEscapeChar '"' '\'' = ['\''] from rfl]
      exact hasBareQuote_quote _
    · rw [hasBareQuote_unit_dq c hq]
      apply ih
      simp only [List.contains_cons, Bool.or_eq_true, beq_iff_eq] at hc
      rcases hc with h | h
      · exact absurd h.symm hq
      · exact h

theorem format_ok {v : SqlValue} (hv : v ≠ .pyNone) :
    ∃ fv, Where._format_value v = .ok fv := by
  rcases v with i | t | _
  · exact ⟨_, rfl⟩
  · exact ⟨_, rfl⟩
  · exact absurd rfl hv

theorem _add_any_expr_clean {w : WhereState} (hw : w._isdirty = false) (x : String) :
    Where._add_any w x false false = .error .syntaxError := by
  unfold Where._add_any
  simp [hw]

theorem bindFormat_clean {w : WhereState} (hw : w._isdirty = false) {v : SqlValue}
    (hv : v ≠ .pyNone) (op : String) :
    (Where._format_value v >>= fun fv => Where._add_expression w [op, fv]) =
      .error .syntaxError := by
  obtain ⟨fv, hfv⟩ := format_ok hv
  rw [hfv, except_bind_ok]
  exact _add_expression_clean hw op [fv]

theorem _check_values_ok {l : List SqlValue} {n : Nat} (hlen : ¬ l.length < n)
    (hct : Where._check_types l = true) : Where._check_values l n = .ok l := by
  unfold Where._check_values
  rw [if_neg hlen, hct]
  simp

theorem _in_clean {w : WhereState} (hw : w._isdirty = false) (op : String) {l : List SqlValue}
    (hl0 : l ≠ []) (hct : Where._check_types l = true) (hnp : SqlValue.pyNone ∉ l) :
    Where._in w op l = .error .syntaxError := by
  have hlen : ¬ l.length < 1 := by
    simpa [Nat.lt_one_iff, List.length_eq_zero] using hl0
  obtain ⟨strs, hstrs⟩ := formatValues_isOk (l := dedupSort l)
    (fun v hv he => hnp (he ▸ mem_dedupSort.mp hv))
  unfold Where._in
  rw [_check_values_ok hlen hct, except_bind_ok, hstrs, except_bind_ok]
  exact _add_expression_clean hw _ _

theorem _between_clean {w : WhereState} (hw : w._isdirty = false) (op : String)
    {l : List SqlValue} (hl2 : 2 ≤ l.length) (hct : Where._check_types l = true)
    (hnp : SqlValue.pyNone ∉ l) : Where._between w op l = .error .syntaxError := by
  have hlen : ¬ l.length < 2 := by omega
  have hne : l ≠ [] := by
    intro he
    rw [he] at hl2
    simp at hl2
  obtain ⟨lo, hlo⟩ := format_ok (v := listMin l) (fun he => hnp (he ▸ listMin_mem hne))
  obtain ⟨hi, hhi⟩ := format_ok (v := listMax l) (fun he => hnp (he ▸ listMax_mem hne))
  unfold Where._between
  rw [_check_values_ok hlen hct, except_bind_ok, hlo, except_bind_ok, hhi, except_bind_ok]
  exact _add_expression_clean hw _ _

theorem _like_clean {w : WhereState} (hw : w._isdirty = false) (op : String) {v : SqlValue}
    (hv : v ≠ .pyNone) (esc : Option String) :
    Where._like w op v esc = .error .syntaxError := by
  obtain ⟨fv, hfv⟩ := format_ok hv
  unfold Where._like
  rw [hfv, except_bind_ok]
  exact _add_expression_clean hw _ _

theorem And_dirty {w : WhereState} (hd : w._isdirty = true) (arg : InitArg) :
    Where.And w arg = .error .syntaxError := by
  show Where._combine w Where.SQL_AND arg = _
  unfold Where._combine Where._add_any
  simp [hd, except_bind_error]

theorem And_field_eq {w : WhereState} (hd : w._isdirty = false) (f : String) :
    Where.And w (.field f) =
      .ok { _parts := w._parts ++ [(Where.SQL_AND, false), (f, true)], _isdirty := true } := by
  show Where._combine w Where.SQL_AND (.field f) = _
  unfold Where._combine Where._add_new Where._add_field Where._add_any
  simp [hd, except_bind_ok, List.append_assoc]

theorem Equals_pyNone (w : WhereState) : Where.Equals w .pyNone = .error .valueError := by
  rw [show Where.Equals w .pyNone = (Where._format_value .pyNone >>= fun x =>
    Where._add_expression w [Where.SQL_EQ, x]) from rfl]
  rw [show Where._format_value .pyNone = .error .valueError from rfl, except_bind_error]

theorem Equals_dirty_eq {w : WhereState} (hd : w._isdirty = true) {v : SqlValue} {fv : String}
    (hfv : Where._format_value v = .ok fv) :
    Where.Equals w v =
      .ok { _parts := w._parts ++ [(Where.SQL_EQ, false), (fv, false)], _isdirty := false } := by
  rw [show Where.Equals w v = (Where._format_value v >>= fun x =>
    Where._add_expression w [Where.SQL_EQ, x]) from rfl, hfv, except_bind_ok]
  unfold Where._add_expression Where._add_any
  simp [hd, except_bind_ok, List.append_assoc]

theorem setKw_mem (kwargs : List (String × String)) (k v : String) :
    (k, v) ∈ Where.setKw kwargs k v := by
  unfold Where.setKw
  split
  · rename_i hany
    rw [List.any_eq_true] at hany
    obtain ⟨p, hp, hpk⟩ := hany
    refine List.mem_map.mpr ⟨p, hp, ?_⟩
    simp [hpk]
  · simp

/-! Claim theorems. -/

/-- C1 (counterexample): the chain
`combine(Where('A').Equals(1).And('B').Equals(0)).Or('C').IsNull()` renders
`"( A = 1 AND B = 0 ) OR C IS NULL"` — the parenthesis parts are joined with
single spaces like every other part — which differs from the claimed
`"(A = 1 AND B = 0) OR C IS NULL"` with no interior padding. -/
theorem combine_render_tight_parens_refuted :
    renderE (Where.init (.field "A") >>= fun w => Where.Equals w (.int 1) >>= fun w =>
      Where.And w (.field "B") >>= fun w => Where.Equals w (.int 0) >>= fun w =>
      combine w >>= fun w => Where.Or w (.field "C") >>= fun w => Where.IsNull w) =
      Except.ok "( A = 1 AND B = 0 ) OR C IS NULL" ∧
    "( A = 1 AND B = 0 ) OR C IS NULL" ≠ "(A = 1 AND B = 0) OR C IS NULL" :=
  ⟨by decide, by decide⟩

/-- C1 (amended): the combine/Or/IsNull chain renders exactly
`"( A = 1 AND B = 0 ) OR C IS NULL"`: conjunctions are upper-case, all tokens
— the parenthesis tokens included — are separated by single spaces, so the
parenthesised sub-expression carries one space of interior padding on each
side.  This matches the repository's own test
`tests/tools/test_queries.py::test_where_chains`. -/
theorem combine_render_spaced_parens :
    renderE (Where.init (.field "A") >>= fun w => Where.Equals w (.int 1) >>= fun w =>
      Where.And w (.field "B") >>= fun w => Where.Equals w (.int 0) >>= fun w =>
      combine w >>= fun w => Where.Or w (.field "C") >>= fun w => Where.IsNull w) =
      Except.ok "( A = 1 AND B = 0 ) OR C IS NULL" := by decide

/-- C2 (counterexample): calling a second terminal operator on the complete
expression `Where('A').Equals(1)` raises `SyntaxError`, not `OverflowError`. -/
theorem second_terminal_not_overflowError :
    (Where.init (.field "A") >>= fun w => Where.Equals w (.int 1) >>= fun w =>
      Where.Equals w (.int 2)) = .error .syntaxError ∧
    PyErr.syntaxError ≠ PyErr.overflowError :=
  ⟨rfl, by decide⟩

/-- C2 (amended): for every complete `Where` expression, calling any second
terminal operator whose own argument validation succeeds (a formattable value,
and for `In`/`Between` a non-empty same-family value list of sufficient
length) fails with `SyntaxError`, raised synchronously at that call. -/
theorem second_terminal_operator_raises_syntaxError
    (w : WhereState) (hw : w._isdirty = false)
    (v : SqlValue) (hv : v ≠ .pyNone)
    (l : List SqlValue) (hlen : 2 ≤ l.length) (hct : Where._check_types l = true)
    (hnp : SqlValue.pyNone ∉ l) (esc : Option String) :
    Where.Equals w v = .error .syntaxError ∧
    Where.NotEquals w v = .error .syntaxError ∧
    Where.GreaterThan w v = .error .syntaxError ∧
    Where.LessThan w v = .error .syntaxError ∧
    Where.GreaterThanOrEquals w v = .error .syntaxError ∧
    Where.LessThanOrEquals w v = .error .syntaxError ∧
    Where.Like w v esc = .error .syntaxError ∧
    Where.NotLike w v esc = .error .syntaxError ∧
    Where.In w l = .error .syntaxError ∧
    Where.NotIn w l = .error .syntaxError ∧
    Where.Between w l = .error .syntaxError ∧
    Where.NotBetween w l = .error .syntaxError ∧
    Where.IsNull w = .error .syntaxError ∧
    Where.IsNotNull w = .error .syntaxError := by
  have hl0 : l ≠ [] := by
    intro he
    rw [he] at hlen
    simp at hlen
  refine ⟨?_, ?_, ?_, ?_, ?_, ?_, ?_, ?_, ?_, ?_, ?_, ?_, ?_, ?_⟩
  · exact bindFormat_clean hw hv Where.SQL_EQ
  · exact bindFormat_clean hw hv Where.SQL_NE
  · exact bindFormat_clean hw hv Where.SQL_GT
  · exact bindFormat_clean hw hv Where.SQL_LT
  · exact bindFormat_clean hw hv Where.SQL_GE
  · exact bindFormat_clean hw hv Where.SQL_LE
  · exact _like_clean hw Where.SQL_LIKE hv esc
  · exact _like_clean hw (Where.SQL_NOT ++ " " ++ Where.SQL_LIKE) hv esc
  · exact _in_clean hw Where.SQL_IN hl0 hct hnp
  · exact _in_clean hw (Where.SQL_NOT ++ " " ++ Where.SQL_IN) hl0 hct hnp
  · exact _between_clean hw Where.SQL_BETWEEN hlen hct hnp
  · exact _between_clean hw (Where.SQL_NOT ++ " " ++ Where.SQL_BETWEEN) hlen hct hnp
  · show (Where._add_any w (Where.SQL_IS ++ " " ++ Where.SQL_NULL) false false >>= fun s1 =>
      (Except.ok { s1 with _isdirty := false } : Except PyErr WhereState)) = .error .syntaxError
    rw [_add_any_expr_clean hw, except_bind_error]
  · show (Where._add_any w (String.intercalate " " [Where.SQL_IS, Where.SQL_NOT, Where.SQL_NULL])
      false false >>= fun s1 =>
        (Except.ok { s1 with _isdirty := false } : Except PyErr WhereState)) =
      .error .syntaxError
    rw [_add_any_expr_clean hw, except_bind_error]

/-- C2 (witness): the amended theorem applied to the complete expression
`Where('A').Equals(1)` and the value `2`. -/
theorem second_terminal_operator_raises_syntaxError_witness :
    Where.Equals { _parts := [("A", true), ("=", false), ("1", false)], _isdirty := false }
      (.int 2) = .error .syntaxError :=
  (second_terminal_operator_raises_syntaxError
    { _parts := [("A", true), ("=", false), ("1", false)], _isdirty := false } rfl
    (.int 2) (by decide) [.int 1, .int 2] (by decide) (by decide) (by decide) none).1

/-- C3 (counterexample): `Where(Where('A').Equals(1))` renders `"A = 1"`,
whereas wrapping the same expression in parentheses (`combine`) renders
`"( A = 1 )"` — the copy constructor adds no parentheses. -/
theorem init_from_clause_not_parenthesized :
    renderE (Where.init (.field "A") >>= fun w => Where.Equals w (.int 1) >>= fun w =>
      Where.init (.clause w)) = Except.ok "A = 1" ∧
    renderE (Where.init (.field "A") >>= fun w => Where.Equals w (.int 1) >>= fun w =>
      combine w) = Except.ok "( A = 1 )" ∧
    "A = 1" ≠ "( A = 1 )" ∧ "A = 1" ≠ "(A = 1)" :=
  ⟨rfl, rfl, by decide, by decide⟩

/-- C3 (amended): constructing a `Where` from an existing `Where` copies its
parts and completeness state verbatim — the rendering is identical to that of
the source expression, with no parentheses added — and constructing from a
value that is neither text nor a `Where` instance fails with `ValueError`. -/
theorem init_from_clause_copies (w : WhereState) :
    Where.init (.clause w) = .ok w ∧ Where.init .other = .error .valueError :=
  ⟨rfl, rfl⟩

/-- C4 (code-bug evaluation): `Where('')` does not raise — it succeeds and
yields an open expression referencing the empty field name, because
`_add_new` only checks `isinstance(field_or_clause, str)` and `_add_field`
performs no emptiness check. -/
theorem init_empty_field_accepted :
    Where.init (.field "") = .ok { _parts := [("", true)], _isdirty := true } := rfl

/-- C5 (counterexample): formatting the text value
`"Monty Python's Flying Circus"` produces a double-quoted literal in which
the embedded single quote is neither doubled nor backslash-escaped, so no
single escaping scheme covers all input strings. -/
theorem text_quote_escaping_inconsistent :
    Where._format_value (.text "Monty Python's Flying Circus") =
      .ok "\"Monty Python's Flying Circus\"" ∧
    quoteEscapedOk (literalBody "\"Monty Python's Flying Circus\"") = false ∧
    '\'' ∈ literalBody "\"Monty Python's Flying Circus\"" :=
  ⟨by decide, by decide, by decide⟩

/-- C5 (amended): `to_repr` quotes every text value following Python `repr`
semantics: a string containing a single quote but no double quote is wrapped
in double quotes with its single quotes left unescaped (a bare quote remains
in the literal body); every other string is wrapped in single quotes with
every embedded single quote backslash-escaped (no bare quote remains).  The
escaping scheme is therefore conditional on the input, not uniform. -/
theorem to_repr_quote_escaping_scheme (s : String) :
    if (s.data.contains '\'' && ! s.data.contains '"') = true then
      (to_repr s).data.head? = some '"' ∧ (to_repr s).data.getLast? = some '"' ∧
        hasBareQuote (literalBody (to_repr s)) = true
    else
      (to_repr s).data.head? = some '\'' ∧ (to_repr s).data.getLast? = some '\'' ∧
        hasBareQuote (literalBody (to_repr s)) = false := by
  by_cases hc : (s.data.contains '\'' && ! s.data.contains '"') = true
  · rw [if_pos hc]
    have hq : to_repr s = String.mk ('"' :: (pyEscape '"' s.data ++ ['"'])) := by
      unfold to_repr
      rw [if_pos hc]
    rw [hq]
    refine ⟨rfl, ?_, ?_⟩
    · show ('"' :: (pyEscape '"' s.data ++ ['"'])).getLast? = some '"'
      rw [show '"' :: (pyEscape '"' s.data ++ ['"']) = ('"' :: pyEscape '"' s.data) ++ ['"']
        from rfl]
      exact List.getLast?_concat _
    · show hasBareQuote ((pyEscape '"' s.data ++ ['"']).dropLast) = true
      rw [List.dropLast_concat]
      exact hasBareQuote_pyEscape_dq s.data (Bool.and_eq_true .. ▸ hc).1
  · rw [if_neg hc]
    have hq : to_repr s = String.mk ('\'' :: (pyEscape '\'' s.data ++ ['\''])) := by
      unfold to_repr
      rw [if_neg hc]
    rw [hq]
    refine ⟨rfl, ?_, ?_⟩
    · show ('\'' :: (pyEscape '\'' s.data ++ ['\''])).getLast? = some '\''
      rw [show '\'' :: (pyEscape '\'' s.data ++ ['\'']) = ('\'' :: pyEscape '\'' s.data) ++ ['\'']
        from rfl]
      exact List.getLast?_concat _
    · show hasBareQuote ((pyEscape '\'' s.data ++ ['\'']).dropLast) = false
      rw [List.dropLast_concat]
      exact hasBareQuote_pyEscape_sq s.data

/-- C6 (counterexample): `Where('A').Equals(1).And('A').Equals(0).fields`
returns `("A", "A")` — field occurrences are kept in order with duplicates,
not reduced to distinct names. -/
theorem fields_keeps_duplicates :
    (Where.init (.field "A") >>= fun w => Where.Equals w (.int 1) >>= fun w =>
      Where.And w (.field "A") >>= fun w => Where.Equals w (.int 0)).map Where.fields =
      Except.ok ["A", "A"] ∧
    ¬ (["A", "A"] : List String).Nodup ∧ (["A", "A"] : List String) ≠ ["A"] :=
  ⟨rfl, by decide, by decide⟩

/-- C6 (amended): `fields` lists every field reference in order of occurrence
without removing duplicates: `And('f')` followed by a terminal operator
appends exactly `f` to the field list, terminal operators append nothing, and
for the example chain — whose fields happen to be distinct — the result is
`("A", "B", "C")`. -/
theorem fields_occurrence_order (wa : WhereState) (ha : wa._isdirty = false) (f : String)
    (we : WhereState) (he : we._isdirty = true) (v : SqlValue) (fv : String)
    (hfv : Where._format_value v = .ok fv) :
    (Where.And wa (.field f)).map Where.fields = .ok (Where.fields wa ++ [f]) ∧
    (Where.Equals we v).map Where.fields = .ok (Where.fields we) ∧
    (Where.init (.field "A") >>= fun w => Where.Equals w (.int 1) >>= fun w =>
      Where.And w (.field "B") >>= fun w => Where.Equals w (.int 0) >>= fun w =>
      Where.Or w (.field "C") >>= fun w => Where.IsNull w).map Where.fields =
      Except.ok ["A", "B", "C"] := by
  refine ⟨?_, ?_, rfl⟩
  · rw [And_field_eq ha f]
    show Except.ok (Where.fields _) = _
    rw [Except.ok.injEq]
    unfold Where.fields
    simp [List.filter_append]
  · rw [Equals_dirty_eq he hfv]
    show Except.ok (Where.fields _) = _
    rw [Except.ok.injEq]
    unfold Where.fields
    simp [List.filter_append]

/-- C6 (witness): the amended theorem applied to `Where('A').Equals(1)` (for
the `And` part) and `Where('A')` (for the `Equals` part) with value `0`. -/
theorem fields_occurrence_order_witness :
    (Where.And { _parts := [("A", true), ("=", false), ("1", false)], _isdirty := false }
        (.field "B")).map Where.fields = .ok (Where.fields
          { _parts := [("A", true), ("=", false), ("1", false)], _isdirty := false } ++ ["B"]) :=
  (fields_occurrence_order
    { _parts := [("A", true), ("=", false), ("1", false)], _isdirty := false } rfl "B"
    { _parts := [("A", true)], _isdirty := true } rfl (.int 0) "0" rfl).1

/-- C7: `In` and `NotIn` render a result that only depends on which values
occur — not on their order or multiplicity — because the values are
de-duplicated and sorted ascending before rendering; in particular
`In(2,1,2,3)` and `In(3,2,1)` on field `F` both render `"F IN (1, 2, 3)"`. -/
theorem in_order_multiplicity_independent (w : WhereState) (l1 l2 : List SqlValue)
    (h : ∀ v, v ∈ l1 ↔ v ∈ l2) :
    Where.In w l1 = Where.In w l2 ∧ Where.NotIn w l1 = Where.NotIn w l2 ∧
    renderE (Where.init (.field "F") >>= fun x =>
      Where.In x [.int 2, .int 1, .int 2, .int 3]) = Except.ok "F IN (1, 2, 3)" ∧
    renderE (Where.init (.field "F") >>= fun x =>
      Where.In x [.int 3, .int 2, .int 1]) = Except.ok "F IN (1, 2, 3)" := by
  refine ⟨?_, ?_, rfl, rfl⟩
  · show Where._in w Where.SQL_IN l1 = Where._in w Where.SQL_IN l2
    exact _in_eq_of_mem_iff w _ h
  · show Where._in w (Where.SQL_NOT ++ " " ++ Where.SQL_IN) l1 =
      Where._in w (Where.SQL_NOT ++ " " ++ Where.SQL_IN) l2
    exact _in_eq_of_mem_iff w _ h

/-- C7 (witness): the theorem applied to the open expression `Where('F')` and
the value lists `(2,1,2,3)` and `(3,2,1)`. -/
theorem in_order_multiplicity_independent_witness :
    (∀ v : SqlValue, v ∈ ([.int 2, .int 1, .int 2, .int 3] : List SqlValue) ↔
      v ∈ ([.int 3, .int 2, .int 1] : List SqlValue)) ∧
    Where.In { _parts := [("F", true)], _isdirty := true } [.int 2, .int 1, .int 2, .int 3] =
      Where.In { _parts := [("F", true)], _isdirty := true } [.int 3, .int 2, .int 1] := by
  have hm : ∀ v : SqlValue, v ∈ ([.int 2, .int 1, .int 2, .int 3] : List SqlValue) ↔
      v ∈ ([.int 3, .int 2, .int 1] : List SqlValue) := by
    intro v
    simp only [List.mem_cons, List.not_mem_nil, or_false]
    tauto
  exact ⟨hm, (in_order_multiplicity_independent
    { _parts := [("F", true)], _isdirty := true } _ _ hm).1⟩

/-- C8: `Between` and `NotBetween` render the same string for any two
permutations of the supplied values, using the formatted minimum and maximum;
in particular `Between(10,1)` and `Between(1,10)` on field `F` both render
`"F BETWEEN 1 AND 10"`. -/
theorem between_order_independent (w : WhereState) (l1 l2 : List SqlValue)
    (hp : List.Perm l1 l2) :
    Where.Between w l1 = Where.Between w l2 ∧
    Where.NotBetween w l1 = Where.NotBetween w l2 ∧
    renderE (Where.init (.field "F") >>= fun x => Where.Between x [.int 10, .int 1]) =
      Except.ok "F BETWEEN 1 AND 10" ∧
    renderE (Where.init (.field "F") >>= fun x => Where.Between x [.int 1, .int 10]) =
      Except.ok "F BETWEEN 1 AND 10" := by
  refine ⟨?_, ?_, rfl, rfl⟩
  · show Where._between w Where.SQL_BETWEEN l1 = Where._between w Where.SQL_BETWEEN l2
    exact _between_eq_of_perm w _ hp
  · show Where._between w (Where.SQL_NOT ++ " " ++ Where.SQL_BETWEEN) l1 =
      Where._between w (Where.SQL_NOT ++ " " ++ Where.SQL_BETWEEN) l2
    exact _between_eq_of_perm w _ hp

/-- C8 (witness): the theorem applied to the open expression `Where('F')` and
the permuted value lists `(10,1)` and `(1,10)`. -/
theorem between_order_independent_witness :
    Where.Between { _parts := [("F", true)], _isdirty := true } [.int 10, .int 1] =
      Where.Between { _parts := [("F", true)], _isdirty := true } [.int 1, .int 10] :=
  (between_order_independent { _parts := [("F", true)], _isdirty := true }
    [.int 10, .int 1] [.int 1, .int 10] (by decide)).1

/-- C9: heap-level `And`, `Or`, `Equals` and `IsNull` never mutate existing
objects: every reference that existed before the call still resolves to the
same state afterwards (so the operand's parts, completeness flag and rendered
string are unchanged, and likewise for a `Where` passed as argument), and the
returned reference is a freshly allocated instance. -/
theorem operators_never_mutate_operands
    (hA : List WhereState) (rA : Nat) (argA : String ⊕ Nat) (outA : List WhereState × Nat)
    (HA : heapAnd hA rA argA = .ok outA)
    (hO : List WhereState) (rO : Nat) (argO : String ⊕ Nat) (outO : List WhereState × Nat)
    (HO : heapOr hO rO argO = .ok outO)
    (hE : List WhereState) (rE : Nat) (vE : SqlValue) (outE : List WhereState × Nat)
    (HE : heapEquals hE rE vE = .ok outE)
    (hN : List WhereState) (rN : Nat) (outN : List WhereState × Nat)
    (HN : heapIsNull hN rN = .ok outN) :
    heapFrame hA outA ∧ heapFrame hO outO ∧ heapFrame hE outE ∧ heapFrame hN outN := by
  refine ⟨?_, ?_, ?_, ?_⟩
  · unfold heapAnd at HA
    rcases hra : resolveArg hA argA with _ | a
    · rw [hra] at HA
      exact absurd HA (by simp)
    · rw [hra] at HA
      exact return_new_heap_frame HA
  · unfold heapOr at HO
    rcases hro : resolveArg hO argO with _ | a
    · rw [hro] at HO
      exact absurd HO (by simp)
    · rw [hro] at HO
      exact return_new_heap_frame HO
  · exact return_new_heap_frame HE
  · exact return_new_heap_frame HN

/-- C9 (witness): the theorem applied to singleton heaps holding
`Where('A').Equals(1)` (for `And`/`Or`) and `Where('A')` (for
`Equals`/`IsNull`). -/
theorem operators_never_mutate_operands_witness :
    heapFrame [{ _parts := [("A", true), ("=", false), ("1", false)], _isdirty := false }]
      ([{ _parts := [("A", true), ("=", false), ("1", false)], _isdirty := false },
        { _parts := [("A", true), ("=", false), ("1", false), ("AND", false), ("B", true)],
          _isdirty := true }], 1) ∧
    heapFrame [{ _parts := [("A", true), ("=", false), ("1", false)], _isdirty := false }]
      ([{ _parts := [("A", true), ("=", false), ("1", false)], _isdirty := false },
        { _parts := [("A", true), ("=", false), ("1", false), ("OR", false), ("B", true)],
          _isdirty := true }], 1) ∧
    heapFrame [{ _parts := [("A", true)], _isdirty := true }]
      ([{ _parts := [("A", true)], _isdirty := true },
        { _parts := [("A", true), ("=", false), ("1", false)], _isdirty := false }], 1) ∧
    heapFrame [{ _parts := [("A", true)], _isdirty := true }]
      ([{ _parts := [("A", true)], _isdirty := true },
        { _parts := [("A", true), ("IS NULL", false)], _isdirty := false }], 1) :=
  operators_never_mutate_operands
    [{ _parts := [("A", true), ("=", false), ("1", false)], _isdirty := false }] 0
    (Sum.inl "B") _ (by decide)
    [{ _parts := [("A", true), ("=", false), ("1", false)], _isdirty := false }] 0
    (Sum.inl "B") _ (by decide)
    [{ _parts := [("A", true)], _isdirty := true }] 0 (.int 1) _ (by decide)
    [{ _parts := [("A", true)], _isdirty := true }] 0 _ (by decide)

/-- C10: for every open (incomplete) expression, `str()` raises `ValueError`
while `repr()` and `get_kwargs()` do not raise: `repr()` returns the
space-joined partial token stream, and `get_kwargs` stores that same partial
stream under the given keyword in the supplied keyword dictionary (the pair
is a member of the result). -/
theorem open_query_str_raises (w : WhereState) (hd : w._isdirty = true) (keyword : String)
    (kwargs : List (String × String)) :
    Where.__str__ w = .error .valueError ∧
    Where.__repr__ w = .ok (Where.outputJoin w) ∧
    Where.get_kwargs w keyword kwargs =
      .ok (Where.setKw kwargs keyword (Where.outputJoin w)) ∧
    (keyword, Where.outputJoin w) ∈ Where.setKw kwargs keyword (Where.outputJoin w) := by
  refine ⟨?_, rfl, rfl, setKw_mem kwargs keyword _⟩
  unfold Where.__str__ Where._output
  simp [hd]

/-- C10 (witness): the theorem applied to the open expression `Where('A')`
with the default keyword and an existing keyword dictionary. -/
theorem open_query_str_raises_witness :
    Where.__str__ { _parts := [("A", true)], _isdirty := true } = .error .valueError ∧
    Where.__repr__ { _parts := [("A", true)], _isdirty := true } =
      .ok (Where.outputJoin { _parts := [("A", true)], _isdirty := true }) ∧
    Where.get_kwargs { _parts := [("A", true)], _isdirty := true } "where_clause"
        [("test", "0")] = .ok (Where.setKw [("test", "0")] "where_clause"
          (Where.outputJoin { _parts := [("A", true)], _isdirty := true })) ∧
    ("where_clause", Where.outputJoin { _parts := [("A", true)], _isdirty := true }) ∈
      Where.setKw [("test", "0")] "where_clause"
        (Where.outputJoin { _parts := [("A", true)], _isdirty := true }) :=
  open_query_str_raises { _parts := [("A", true)], _isdirty := true } rfl "where_clause"
    [("test", "0")]
